import Mathlib

/-!
# Verification of `production_line_control.py` (repository Gradmo/Study)

Shallow embedding of the production-line state machine of
`src/production_line_control.py` and proofs about it.

Modelling conventions:
* Python floats are modelled as rationals (`ℚ`); `random.random()` draws and
  `random.uniform(0.8, 1.0)` draws are passed in explicitly as inputs.
* Python `int(x)` (truncation toward zero) is `pyInt`.
* `time.time() - self.start_time` readings are passed in explicitly as inputs
  (`CycleInput.now` for line 118, `CycleInput.now2` for line 159).
* Observer callbacks do not mutate the line; every `notify_observers()` call is
  recorded in an event log `notifications` (one entry per call, carrying the
  state and the metrics snapshot the observers receive).
* The code is sequential inside each method; the instance lock `self._lock` has
  no effect on the sequential semantics and is treated separately in the
  lock-discipline access table at the end of the definitions section.
-/

set_option autoImplicit false

namespace ProductionLineControl

/-- `Configuration._load_config` (lines 34-40): the default parameter set.
Fields keep the Python attribute names. -/
structure Configuration where
  max_speed : ℚ
  error_threshold : ℚ
  maintenance_interval : ℚ
  sensor_count : ℕ
deriving DecidableEq, Repr

/-- The values `_load_config` always assigns (lines 36-39):
`max_speed = 100`, `error_threshold = 0.05`, `maintenance_interval = 3600`,
`sensor_count = 4`. -/
def defaultConfig : Configuration :=
  { max_speed := 100
    error_threshold := 1/20
    maintenance_interval := 3600
    sensor_count := 4 }

/-- `MachineState` (lines 42-47). -/
inductive MachineState where
  | IDLE
  | RUNNING
  | ERROR
  | MAINTENANCE
deriving DecidableEq, Repr

/-- The `metrics_history` dict of four parallel append-only lists
(lines 67-72, appended to in `_update_metrics`, lines 157-163). -/
structure MetricsHistory where
  time : List ℚ
  production_rate : List ℚ
  error_count : List ℤ
  total_produced : List ℤ
deriving DecidableEq, Repr

/-- The metrics snapshot built by `notify_observers` (lines 81-86). -/
structure Snapshot where
  production_rate : ℚ
  error_count : ℤ
  total_produced : ℤ
  uptime : ℚ
deriving DecidableEq, Repr

/-- The mutable fields of a `ProductionLine` object (`__init__`, lines 56-72),
plus `notifications`: the log of `notify_observers()` calls, one entry per
call, recording the `(self.state, metrics)` pair delivered to every observer
(lines 79-88).  `start_time` and the observer list are not state here: times
are inputs, and observers only receive data. -/
structure ProductionLine where
  state : MachineState
  production_rate : ℚ
  error_count : ℤ
  total_produced : ℤ
  uptime : ℚ
  _running : Bool
  metrics_history : MetricsHistory
  notifications : List (MachineState × Snapshot)
deriving DecidableEq, Repr

/-- The field values `__init__` assigns (lines 58-72). -/
def initLine : ProductionLine :=
  { state := MachineState.IDLE
    production_rate := 0
    error_count := 0
    total_produced := 0
    uptime := 0
    _running := false
    metrics_history := { time := [], production_rate := [], error_count := [], total_produced := [] }
    notifications := [] }

/-- Python `int(x)`: truncation toward zero. -/
def pyInt (q : ℚ) : ℤ :=
  if q < 0 then ⌈q⌉ else ⌊q⌋

/-- `notify_observers` (lines 79-88): build the metrics snapshot from the
current fields and deliver `(state, metrics)` to every observer; modelled as
appending that pair to the notification log. -/
def notify_observers (pl : ProductionLine) : ProductionLine :=
  { pl with notifications :=
      pl.notifications ++
        [(pl.state,
          { production_rate := pl.production_rate
            error_count := pl.error_count
            total_produced := pl.total_produced
            uptime := pl.uptime })] }

/-- `start_production` (lines 90-100): reject unless `IDLE`; otherwise set
`state = RUNNING`, `_running = True`, then notify observers (the spawned
worker thread is modelled separately, by `run_production` and `Step`). -/
def start_production (pl : ProductionLine) : ProductionLine :=
  if pl.state ≠ MachineState.IDLE then pl
  else notify_observers { pl with state := MachineState.RUNNING, _running := true }

/-- `stop_production` (lines 102-111): reject unless `RUNNING`; otherwise set
`_running = False`, `state = IDLE`, then notify observers. -/
def stop_production (pl : ProductionLine) : ProductionLine :=
  if pl.state ≠ MachineState.RUNNING then pl
  else notify_observers { pl with _running := false, state := MachineState.IDLE }

/-- `_simulate_production_cycle` (lines 133-143), for one pair of pseudo-random
draws: `errDraw` is the `random.random()` value of line 136 and `rateDraw` the
`random.uniform(0.8, 1.0)` value of line 142.  Returns the object state after
the call together with `true` iff line 140 raised `RuntimeError`.  The raise
happens after the `error_count` increment, so the increment persists; when no
fault is raised the rate computation and the `total_produced` increment run
regardless of whether the error branch was taken (there is no `else`). -/
def simulate_production_cycle (cfg : Configuration) (errDraw rateDraw : ℚ)
    (pl : ProductionLine) : ProductionLine × Bool :=
  if errDraw < cfg.error_threshold then
    let pl1 := { pl with error_count := pl.error_count + 1 }
    if pl1.error_count > 5 then
      (pl1, true)
    else
      let rate := rateDraw * cfg.max_speed
      ({ pl1 with production_rate := rate
                  total_produced := pl1.total_produced + pyInt (rate / 60) }, false)
  else
    let rate := rateDraw * cfg.max_speed
    ({ pl with production_rate := rate
               total_produced := pl.total_produced + pyInt (rate / 60) }, false)

/-- `_perform_maintenance` (lines 145-155): set `state = MAINTENANCE`, notify,
pause, reset `error_count` to 0, set `state = RUNNING`, notify again. -/
def perform_maintenance (pl : ProductionLine) : ProductionLine :=
  let pl1 := notify_observers { pl with state := MachineState.MAINTENANCE }
  notify_observers { pl1 with error_count := 0, state := MachineState.RUNNING }

/-- `_update_metrics` (lines 157-163): append current time and the three metric
fields to `metrics_history`.  `now2` is the `time.time() - self.start_time`
reading of line 159. -/
def update_metrics (now2 : ℚ) (pl : ProductionLine) : ProductionLine :=
  { pl with metrics_history :=
      { time := pl.metrics_history.time ++ [now2]
        production_rate := pl.metrics_history.production_rate ++ [pl.production_rate]
        error_count := pl.metrics_history.error_count ++ [pl.error_count]
        total_produced := pl.metrics_history.total_produced ++ [pl.total_produced] } }

/-- The per-iteration external inputs of the worker loop `_run_production`:
the two pseudo-random draws consumed by `_simulate_production_cycle` and the
two clock readings (`now` for line 118, `now2` for line 159). -/
structure CycleInput where
  errDraw : ℚ
  rateDraw : ℚ
  now : ℚ
  now2 : ℚ
deriving DecidableEq, Repr

/-- One iteration of the `while` body of `_run_production` (lines 115-131):
run the cycle; on a raised fault the `except` block sets `state = ERROR`,
notifies observers and breaks (second component `false` = loop exits);
otherwise set `uptime`, run maintenance if `uptime >= maintenance_interval`,
update metrics, notify observers and continue (second component `true`). -/
def run_production_step (cfg : Configuration) (inp : CycleInput)
    (pl : ProductionLine) : ProductionLine × Bool :=
  let s := simulate_production_cycle cfg inp.errDraw inp.rateDraw pl
  if s.2 then
    (notify_observers { s.1 with state := MachineState.ERROR }, false)
  else
    let pl1 := { s.1 with uptime := inp.now }
    let pl2 := if pl1.uptime ≥ cfg.maintenance_interval then perform_maintenance pl1 else pl1
    (notify_observers (update_metrics inp.now2 pl2), true)

/-- `_run_production` (lines 113-131) driven by a finite list of per-iteration
inputs: loop while `_running` is set, stopping early when an iteration breaks
out on a fault. -/
def run_production (cfg : Configuration) : List CycleInput → ProductionLine → ProductionLine
  | [], pl => pl
  | inp :: rest, pl =>
      if pl._running then
        let s := run_production_step cfg inp pl
        if s.2 then run_production cfg rest s.1 else s.1
      else pl

/-- The two control-plane entry points exercised by a caller
(`start_production`, lines 90-100, and `stop_production`, lines 102-111). -/
inductive Cmd where
  | start
  | stop
deriving DecidableEq, Repr

/-- Dispatch one control command to the corresponding method. -/
def execCmd (pl : ProductionLine) : Cmd → ProductionLine
  | Cmd.start => start_production pl
  | Cmd.stop => stop_production pl

/-- Apply a finite sequence of control commands in order, with no worker
cycle interleaved between consecutive calls. -/
def execCmds (cmds : List Cmd) (pl : ProductionLine) : ProductionLine :=
  cmds.foldl execCmd pl

/-- Every operation of the class that touches the aggregate: control calls,
one production cycle (with its two pseudo-random draws), the maintenance
routine, a metrics update (with its clock reading) and an observer
notification. -/
inductive Op where
  | startCmd
  | stopCmd
  | cycle (errDraw rateDraw : ℚ)
  | maintenance
  | metrics (now2 : ℚ)
  | notify
deriving DecidableEq, Repr

/-- Dispatch one operation to the corresponding method.  A faulting cycle
still leaves its (persisting) mutations behind, hence `.1`. -/
def applyOp (cfg : Configuration) (pl : ProductionLine) : Op → ProductionLine
  | Op.startCmd => start_production pl
  | Op.stopCmd => stop_production pl
  | Op.cycle e r => (simulate_production_cycle cfg e r pl).1
  | Op.maintenance => perform_maintenance pl
  | Op.metrics n => update_metrics n pl
  | Op.notify => notify_observers pl

/-- The bounds `random.uniform(0.8, 1.0)` guarantees for the rate draw of a
cycle operation; no other operation consumes a draw. -/
def opValid : Op → Prop
  | Op.cycle _ r => 4/5 ≤ r ∧ r ≤ 1
  | _ => True

/-- The five shared fields named by the ordering-guarantee sentence of the
spec (section 5). -/
inductive SharedField where
  | state
  | error_count
  | total_produced
  | production_rate
  | metrics_history
deriving DecidableEq, Repr

/-- The dynamic execution contexts in which statements touching the five
shared fields run.  `notify_observers` and `_update_metrics` take no lock of
their own, so their bodies execute with whatever lock state their caller has
at the call: `_perform_maintenance` invokes `notify_observers` at lines 150
and 155 from inside its `with self._lock:` block (both calls share the one
`maint_notify` context, with identical lock state), while the calls from
`start_production` (line 99), `stop_production` (line 111) and
`_run_production` (lines 123, 124, 130) are made with no lock held.  The
constructor runs before any concurrency exists and holds no lock (the lock
object itself is only created at line 65). -/
inductive CallSite where
  | init_ctor      -- __init__ body, lines 56-72
  | start_locked   -- start_production, inside with self._lock, lines 92-98
  | start_notify   -- notify_observers body, invoked from line 99 (lock released)
  | stop_locked    -- stop_production, inside with self._lock, lines 104-110
  | stop_notify    -- notify_observers body, invoked from line 111 (lock released)
  | loop_metrics   -- _update_metrics body, invoked from line 123 (no lock)
  | loop_notify    -- notify_observers body, invoked from line 124 (no lock)
  | loop_handler   -- the except handler of _run_production, lines 127-131 (no lock)
  | handler_notify -- notify_observers body, invoked from line 130 (no lock)
  | cycle_locked   -- _simulate_production_cycle, inside with self._lock, lines 135-143
  | maint_locked   -- _perform_maintenance, inside with self._lock, lines 147-155
  | maint_notify   -- notify_observers body, invoked from lines 150 and 155 (lock HELD)
deriving DecidableEq, Repr

/-- Whether the executing thread holds `self._lock` in the given context:
true for statements lexically inside a `with self._lock:` block and for the
`notify_observers` body when entered from inside such a block
(`_perform_maintenance`, lines 150 and 155). -/
def lockHeld : CallSite → Bool
  | CallSite.start_locked => true
  | CallSite.stop_locked => true
  | CallSite.cycle_locked => true
  | CallSite.maint_locked => true
  | CallSite.maint_notify => true
  | _ => false

/-- One read or write of a shared field: the context it executes in, the
field, the source line of the statement, and whether it writes. -/
structure FieldAccess where
  site : CallSite
  field : SharedField
  line : ℕ
  isWrite : Bool
deriving DecidableEq, Repr

/-- Every read and write of the five shared fields in
`src/production_line_control.py`, one row per execution context and field
occurrence (the `notify_observers` body lines 82/83/84/88 recur once per
distinct calling context; the `maint_notify` rows cover both the line-150 and
the line-155 call, which have the same lock state). -/
def accessTable : List FieldAccess :=
  [ -- __init__, lines 56-72: initializing writes, no lock
    ⟨CallSite.init_ctor, SharedField.state, 58, true⟩,
    ⟨CallSite.init_ctor, SharedField.production_rate, 59, true⟩,
    ⟨CallSite.init_ctor, SharedField.error_count, 60, true⟩,
    ⟨CallSite.init_ctor, SharedField.total_produced, 61, true⟩,
    ⟨CallSite.init_ctor, SharedField.metrics_history, 67, true⟩,
    -- start_production: guard read and state write inside with self._lock
    ⟨CallSite.start_locked, SharedField.state, 93, false⟩,
    ⟨CallSite.start_locked, SharedField.state, 96, true⟩,
    -- notify_observers body, called from start_production line 99
    ⟨CallSite.start_notify, SharedField.production_rate, 82, false⟩,
    ⟨CallSite.start_notify, SharedField.error_count, 83, false⟩,
    ⟨CallSite.start_notify, SharedField.total_produced, 84, false⟩,
    ⟨CallSite.start_notify, SharedField.state, 88, false⟩,
    -- stop_production: guard read and state write inside with self._lock
    ⟨CallSite.stop_locked, SharedField.state, 105, false⟩,
    ⟨CallSite.stop_locked, SharedField.state, 109, true⟩,
    -- notify_observers body, called from stop_production line 111
    ⟨CallSite.stop_notify, SharedField.production_rate, 82, false⟩,
    ⟨CallSite.stop_notify, SharedField.error_count, 83, false⟩,
    ⟨CallSite.stop_notify, SharedField.total_produced, 84, false⟩,
    ⟨CallSite.stop_notify, SharedField.state, 88, false⟩,
    -- _update_metrics body, called from _run_production line 123, no lock
    ⟨CallSite.loop_metrics, SharedField.metrics_history, 160, true⟩,
    ⟨CallSite.loop_metrics, SharedField.production_rate, 161, false⟩,
    ⟨CallSite.loop_metrics, SharedField.metrics_history, 161, true⟩,
    ⟨CallSite.loop_metrics, SharedField.error_count, 162, false⟩,
    ⟨CallSite.loop_metrics, SharedField.metrics_history, 162, true⟩,
    ⟨CallSite.loop_metrics, SharedField.total_produced, 163, false⟩,
    ⟨CallSite.loop_metrics, SharedField.metrics_history, 163, true⟩,
    -- notify_observers body, called from _run_production line 124, no lock
    ⟨CallSite.loop_notify, SharedField.production_rate, 82, false⟩,
    ⟨CallSite.loop_notify, SharedField.error_count, 83, false⟩,
    ⟨CallSite.loop_notify, SharedField.total_produced, 84, false⟩,
    ⟨CallSite.loop_notify, SharedField.state, 88, false⟩,
    -- the except handler of _run_production writes state, no lock
    ⟨CallSite.loop_handler, SharedField.state, 129, true⟩,
    -- notify_observers body, called from the handler line 130, no lock
    ⟨CallSite.handler_notify, SharedField.production_rate, 82, false⟩,
    ⟨CallSite.handler_notify, SharedField.error_count, 83, false⟩,
    ⟨CallSite.handler_notify, SharedField.total_produced, 84, false⟩,
    ⟨CallSite.handler_notify, SharedField.state, 88, false⟩,
    -- _simulate_production_cycle: whole body in with self._lock (line 135)
    ⟨CallSite.cycle_locked, SharedField.error_count, 137, false⟩,
    ⟨CallSite.cycle_locked, SharedField.error_count, 137, true⟩,
    ⟨CallSite.cycle_locked, SharedField.error_count, 139, false⟩,
    ⟨CallSite.cycle_locked, SharedField.production_rate, 142, true⟩,
    ⟨CallSite.cycle_locked, SharedField.production_rate, 143, false⟩,
    ⟨CallSite.cycle_locked, SharedField.total_produced, 143, false⟩,
    ⟨CallSite.cycle_locked, SharedField.total_produced, 143, true⟩,
    -- _perform_maintenance: whole body in with self._lock (line 147)
    ⟨CallSite.maint_locked, SharedField.state, 148, true⟩,
    -- notify_observers body, called from lines 150 and 155: lock held
    ⟨CallSite.maint_notify, SharedField.production_rate, 82, false⟩,
    ⟨CallSite.maint_notify, SharedField.error_count, 83, false⟩,
    ⟨CallSite.maint_notify, SharedField.total_produced, 84, false⟩,
    ⟨CallSite.maint_notify, SharedField.state, 88, false⟩,
    ⟨CallSite.maint_locked, SharedField.error_count, 152, true⟩,
    ⟨CallSite.maint_locked, SharedField.state, 153, true⟩ ]

/-- The execution contexts in which the lock is held. -/
def lockedSites : List CallSite :=
  [CallSite.start_locked, CallSite.stop_locked, CallSite.cycle_locked,
   CallSite.maint_locked, CallSite.maint_notify]

/-- Whole-system state for one `ProductionLine` object: the object fields
plus the number of worker threads currently executing `_run_production`.
`start_production` spawns a new thread at line 100 every time its `IDLE`
guard passes — also when an earlier worker is still alive because the line
was stopped and restarted while that worker was inside its `time.sleep` —
so the count can exceed one. -/
structure SysM where
  line : ProductionLine
  workers : ℕ
deriving DecidableEq, Repr

/-- Effect of a `start_production` call on the whole system: the object
mutation of lines 92-99 together with the thread spawn of line 100, which
happens exactly when the `IDLE` guard passes. -/
def sysStart (s : SysM) : SysM :=
  ⟨start_production s.line,
   if s.line.state = MachineState.IDLE then s.workers + 1 else s.workers⟩

/-- Effect of a `stop_production` call: only object fields change; any live
worker keeps running until it observes the flag. -/
def sysStop (s : SysM) : SysM :=
  ⟨stop_production s.line, s.workers⟩

/-- A live worker observes `_running == False` at the top of its loop
(line 115) and exits. -/
def sysExit (s : SysM) : SysM :=
  ⟨s.line, s.workers - 1⟩

/-- A live worker executes one full loop iteration; it dies exactly when the
iteration breaks out on a fault (second component of
`run_production_step` false). -/
def sysCycle (cfg : Configuration) (inp : CycleInput) (s : SysM) : SysM :=
  ⟨(run_production_step cfg inp s.line).1,
   if (run_production_step cfg inp s.line).2 then s.workers else s.workers - 1⟩

/-- Atomic steps of the system: control calls by the caller thread, and loop
checks or full loop iterations by any of the live worker threads. -/
inductive StepM (cfg : Configuration) : SysM → SysM → Prop where
  | start (s : SysM) : StepM cfg s (sysStart s)
  | stop (s : SysM) : StepM cfg s (sysStop s)
  | workerExit (s : SysM) :
      1 ≤ s.workers → s.line._running = false → StepM cfg s (sysExit s)
  | workerCycle (s : SysM) (inp : CycleInput) :
      1 ≤ s.workers → s.line._running = true → StepM cfg s (sysCycle cfg inp s)

/-- States reachable from a freshly constructed `ProductionLine` (no worker
thread yet) by the atomic steps above. -/
inductive ReachableM (cfg : Configuration) : SysM → Prop where
  | init : ReachableM cfg ⟨initLine, 0⟩
  | step {s t : SysM} : ReachableM cfg s → StepM cfg s t → ReachableM cfg t

/-- The same steps restricted to the single-worker discipline: a
`start_production` whose `IDLE` guard passes is only taken when no earlier
worker thread is still alive.  This is the subset of runs in which the
stop-then-start race that spawns a second concurrent worker does not occur. -/
inductive StepSW (cfg : Configuration) : SysM → SysM → Prop where
  | start (s : SysM) :
      (s.line.state = MachineState.IDLE → s.workers = 0) → StepSW cfg s (sysStart s)
  | stop (s : SysM) : StepSW cfg s (sysStop s)
  | workerExit (s : SysM) :
      1 ≤ s.workers → s.line._running = false → StepSW cfg s (sysExit s)
  | workerCycle (s : SysM) (inp : CycleInput) :
      1 ≤ s.workers → s.line._running = true → StepSW cfg s (sysCycle cfg inp s)

/-- States reachable under the single-worker discipline. -/
inductive ReachableSW (cfg : Configuration) : SysM → Prop where
  | init : ReachableSW cfg ⟨initLine, 0⟩
  | step {s t : SysM} : ReachableSW cfg s → StepSW cfg s t → ReachableSW cfg t

/-- Invariant carried through the single-worker reachability proof: the
count stays in `[0, 6]`, at most one worker is alive, and the count is 6 only
after the fatal fault, when the state is `ERROR` and the worker has exited. -/
def ErrInvSW (s : SysM) : Prop :=
  0 ≤ s.line.error_count ∧ s.line.error_count ≤ 6 ∧ s.workers ≤ 1 ∧
    (s.line.error_count = 6 →
      s.line.state = MachineState.ERROR ∧ s.workers = 0)

/-- Configuration forcing every cycle to error, as in the all-error scenario
(`errorThreshold = 1.0`, everything else default). -/
def cfgAllError : Configuration :=
  { defaultConfig with error_threshold := 1 }

/-- A concrete all-error run of six cycles (error draw 0 fires against any
positive threshold; clock readings stay far below the default maintenance
interval). -/
def inputs6 : List CycleInput :=
  [⟨0, 9/10, 1, 1⟩, ⟨0, 9/10, 2, 2⟩, ⟨0, 9/10, 3, 3⟩,
   ⟨0, 9/10, 4, 4⟩, ⟨0, 9/10, 5, 5⟩, ⟨0, 9/10, 6, 6⟩]

/-- A concrete error-free run of ten cycles (error draw 1/2 is at or above the
default threshold 1/20; rate draw 9/10 is in `[0.8, 1.0]`). -/
def inputs10 : List CycleInput :=
  [⟨1/2, 9/10, 1, 1⟩, ⟨1/2, 9/10, 2, 2⟩, ⟨1/2, 9/10, 3, 3⟩,
   ⟨1/2, 9/10, 4, 4⟩, ⟨1/2, 9/10, 5, 5⟩, ⟨1/2, 9/10, 6, 6⟩,
   ⟨1/2, 9/10, 7, 7⟩, ⟨1/2, 9/10, 8, 8⟩, ⟨1/2, 9/10, 9, 9⟩,
   ⟨1/2, 9/10, 10, 10⟩]

/-- A line about to exhaust the fault threshold: five errors already
recorded, worker loop active. -/
def lineAtFive : ProductionLine :=
  { initLine with error_count := 5, _running := true }

/-- The stop-then-start race trace, step by step: start, five erroneous
cycles (count 5), stop while the worker is inside its sleep, start again
(spawning a second worker while the first is still alive), then the first
worker faults (count 6, state `ERROR`, `_running` still `True`), and the
surviving second worker runs one more erroneous cycle (count 7). -/
def mw1 : SysM := sysStart ⟨initLine, 0⟩

def mw2 : SysM := sysCycle cfgAllError ⟨0, 9/10, 1, 1⟩ mw1

def mw3 : SysM := sysCycle cfgAllError ⟨0, 9/10, 2, 2⟩ mw2

def mw4 : SysM := sysCycle cfgAllError ⟨0, 9/10, 3, 3⟩ mw3

def mw5 : SysM := sysCycle cfgAllError ⟨0, 9/10, 4, 4⟩ mw4

def mw6 : SysM := sysCycle cfgAllError ⟨0, 9/10, 5, 5⟩ mw5

def mw7 : SysM := sysStop mw6

def mw8 : SysM := sysStart mw7

def mw9 : SysM := sysCycle cfgAllError ⟨0, 9/10, 6, 6⟩ mw8

/-- The final state of the race trace, with `error_count = 7`. -/
def badSys : SysM := sysCycle cfgAllError ⟨0, 9/10, 7, 7⟩ mw9

/-! ## Field-preservation lemmas for the individual methods -/

@[simp] theorem notify_state (pl : ProductionLine) :
    (notify_observers pl).state = pl.state := rfl

@[simp] theorem notify_error_count (pl : ProductionLine) :
    (notify_observers pl).error_count = pl.error_count := rfl

@[simp] theorem notify_total_produced (pl : ProductionLine) :
    (notify_observers pl).total_produced = pl.total_produced := rfl

@[simp] theorem notify_production_rate (pl : ProductionLine) :
    (notify_observers pl).production_rate = pl.production_rate := rfl

@[simp] theorem notify_uptime (pl : ProductionLine) :
    (notify_observers pl).uptime = pl.uptime := rfl

@[simp] theorem notify_running (pl : ProductionLine) :
    (notify_observers pl)._running = pl._running := rfl

@[simp] theorem notify_history (pl : ProductionLine) :
    (notify_observers pl).metrics_history = pl.metrics_history := rfl

@[simp] theorem notify_log_length (pl : ProductionLine) :
    (notify_observers pl).notifications.length = pl.notifications.length + 1 := by
  simp [notify_observers]

@[simp] theorem update_metrics_state (n : ℚ) (pl : ProductionLine) :
    (update_metrics n pl).state = pl.state := rfl

@[simp] theorem update_metrics_error_count (n : ℚ) (pl : ProductionLine) :
    (update_metrics n pl).error_count = pl.error_count := rfl

@[simp] theorem update_metrics_total_produced (n : ℚ) (pl : ProductionLine) :
    (update_metrics n pl).total_produced = pl.total_produced := rfl

@[simp] theorem update_metrics_running (n : ℚ) (pl : ProductionLine) :
    (update_metrics n pl)._running = pl._running := rfl

@[simp] theorem update_metrics_time_length (n : ℚ) (pl : ProductionLine) :
    (update_metrics n pl).metrics_history.time.length =
      pl.metrics_history.time.length + 1 := by
  simp [update_metrics]

@[simp] theorem maintenance_error_count (pl : ProductionLine) :
    (perform_maintenance pl).error_count = 0 := rfl

@[simp] theorem maintenance_state (pl : ProductionLine) :
    (perform_maintenance pl).state = MachineState.RUNNING := rfl

@[simp] theorem maintenance_total_produced (pl : ProductionLine) :
    (perform_maintenance pl).total_produced = pl.total_produced := rfl

@[simp] theorem maintenance_running (pl : ProductionLine) :
    (perform_maintenance pl)._running = pl._running := rfl

@[simp] theorem maintenance_history (pl : ProductionLine) :
    (perform_maintenance pl).metrics_history = pl.metrics_history := rfl

/-! ## Case lemmas for one production cycle -/

theorem cycle_no_error (cfg : Configuration) (e r : ℚ) (pl : ProductionLine)
    (he : ¬ e < cfg.error_threshold) :
    simulate_production_cycle cfg e r pl =
      ({ pl with production_rate := r * cfg.max_speed
                 total_produced := pl.total_produced + pyInt (r * cfg.max_speed / 60) },
       false) := by
  simp [simulate_production_cycle, he]

theorem cycle_error_no_fault (cfg : Configuration) (e r : ℚ) (pl : ProductionLine)
    (he : e < cfg.error_threshold) (hc : pl.error_count + 1 ≤ 5) :
    simulate_production_cycle cfg e r pl =
      ({ pl with error_count := pl.error_count + 1
                 production_rate := r * cfg.max_speed
                 total_produced := pl.total_produced + pyInt (r * cfg.max_speed / 60) },
       false) := by
  have h5 : ¬ (pl.error_count + 1 > 5) := by omega
  simp [simulate_production_cycle, he, h5]

theorem cycle_fault (cfg : Configuration) (e r : ℚ) (pl : ProductionLine)
    (he : e < cfg.error_threshold) (hc : pl.error_count + 1 > 5) :
    simulate_production_cycle cfg e r pl =
      ({ pl with error_count := pl.error_count + 1 }, true) := by
  simp [simulate_production_cycle, he, hc]

theorem cycle_fault_iff (cfg : Configuration) (e r : ℚ) (pl : ProductionLine) :
    (simulate_production_cycle cfg e r pl).2 = true ↔
      e < cfg.error_threshold ∧ pl.error_count + 1 > 5 := by
  by_cases he : e < cfg.error_threshold
  · by_cases hc : pl.error_count + 1 > 5
    · simp [cycle_fault cfg e r pl he hc, he, hc]
    · simp [cycle_error_no_fault cfg e r pl he (by omega), he, hc]
  · simp [cycle_no_error cfg e r pl he, he]

@[simp] theorem cycle_history (cfg : Configuration) (e r : ℚ) (pl : ProductionLine) :
    (simulate_production_cycle cfg e r pl).1.metrics_history = pl.metrics_history := by
  by_cases he : e < cfg.error_threshold
  · by_cases hc : pl.error_count + 1 > 5 <;> simp [simulate_production_cycle, he, hc]
  · simp [simulate_production_cycle, he]

@[simp] theorem cycle_notifications (cfg : Configuration) (e r : ℚ) (pl : ProductionLine) :
    (simulate_production_cycle cfg e r pl).1.notifications = pl.notifications := by
  by_cases he : e < cfg.error_threshold
  · by_cases hc : pl.error_count + 1 > 5 <;> simp [simulate_production_cycle, he, hc]
  · simp [simulate_production_cycle, he]

@[simp] theorem cycle_state (cfg : Configuration) (e r : ℚ) (pl : ProductionLine) :
    (simulate_production_cycle cfg e r pl).1.state = pl.state := by
  by_cases he : e < cfg.error_threshold
  · by_cases hc : pl.error_count + 1 > 5 <;> simp [simulate_production_cycle, he, hc]
  · simp [simulate_production_cycle, he]

@[simp] theorem cycle_running (cfg : Configuration) (e r : ℚ) (pl : ProductionLine) :
    (simulate_production_cycle cfg e r pl).1._running = pl._running := by
  by_cases he : e < cfg.error_threshold
  · by_cases hc : pl.error_count + 1 > 5 <;> simp [simulate_production_cycle, he, hc]
  · simp [simulate_production_cycle, he]

/-! ## Unfolding lemmas for the worker loop -/

theorem run_nil (cfg : Configuration) (pl : ProductionLine) :
    run_production cfg [] pl = pl := rfl

theorem run_not_running (cfg : Configuration) (inp : CycleInput)
    (rest : List CycleInput) (pl : ProductionLine) (hr : pl._running = false) :
    run_production cfg (inp :: rest) pl = pl := by
  simp [run_production, hr]

theorem run_cons_true (cfg : Configuration) (inp : CycleInput)
    (rest : List CycleInput) (pl : ProductionLine) (hr : pl._running = true)
    (hs : (run_production_step cfg inp pl).2 = true) :
    run_production cfg (inp :: rest) pl =
      run_production cfg rest (run_production_step cfg inp pl).1 := by
  simp [run_production, hr, hs]

theorem run_cons_false (cfg : Configuration) (inp : CycleInput)
    (rest : List CycleInput) (pl : ProductionLine) (hr : pl._running = true)
    (hs : (run_production_step cfg inp pl).2 = false) :
    run_production cfg (inp :: rest) pl = (run_production_step cfg inp pl).1 := by
  simp [run_production, hr, hs]

theorem step_fault (cfg : Configuration) (inp : CycleInput) (pl : ProductionLine)
    (hf : (simulate_production_cycle cfg inp.errDraw inp.rateDraw pl).2 = true) :
    run_production_step cfg inp pl =
      (notify_observers
        { (simulate_production_cycle cfg inp.errDraw inp.rateDraw pl).1 with
            state := MachineState.ERROR },
       false) := by
  simp [run_production_step, hf]

theorem step_error_no_fault_fields (cfg : Configuration) (inp : CycleInput)
    (pl : ProductionLine)
    (he : inp.errDraw < cfg.error_threshold)
    (hc : pl.error_count + 1 ≤ 5)
    (hm : ¬ inp.now ≥ cfg.maintenance_interval) :
    (run_production_step cfg inp pl).2 = true ∧
    (run_production_step cfg inp pl).1.error_count = pl.error_count + 1 ∧
    (run_production_step cfg inp pl).1.metrics_history.time.length =
      pl.metrics_history.time.length + 1 ∧
    (run_production_step cfg inp pl).1._running = pl._running ∧
    (run_production_step cfg inp pl).1.state = pl.state := by
  have h5 : ¬ (pl.error_count + 1 > 5) := by omega
  simp [run_production_step, simulate_production_cycle, he, h5, hm,
    update_metrics, notify_observers]

theorem step_clean_fields (cfg : Configuration) (inp : CycleInput)
    (pl : ProductionLine)
    (he : ¬ inp.errDraw < cfg.error_threshold)
    (hm : ¬ inp.now ≥ cfg.maintenance_interval) :
    (run_production_step cfg inp pl).2 = true ∧
    (run_production_step cfg inp pl).1.error_count = pl.error_count ∧
    (run_production_step cfg inp pl).1.total_produced =
      pl.total_produced + pyInt (inp.rateDraw * cfg.max_speed / 60) ∧
    (run_production_step cfg inp pl).1.metrics_history.time.length =
      pl.metrics_history.time.length + 1 ∧
    (run_production_step cfg inp pl).1._running = pl._running ∧
    (run_production_step cfg inp pl).1.state = pl.state := by
  simp [run_production_step, simulate_production_cycle, he, hm,
    update_metrics, notify_observers]

/-! ## Claim C1 -/

/-- C1, counterexample: with the default configuration, the draw 0 falls below
the error threshold 1/20, the fatal fault is not raised (the count goes 0 to
1), and yet `total_produced` changes across the call — the source has no
`else` between the error branch and the production computation, so an error
cycle still contributes production. -/
theorem C1_cex :
    (0:ℚ) < defaultConfig.error_threshold ∧
    (simulate_production_cycle defaultConfig 0 (9/10) initLine).2 = false ∧
    (simulate_production_cycle defaultConfig 0 (9/10) initLine).1.total_produced ≠
      initLine.total_produced := by
  norm_num [simulate_production_cycle, defaultConfig, initLine, pyInt]

/-- C1, amended: in every invocation of `_simulate_production_cycle` in which
the error trigger fires and the fatal fault is not raised, `error_count` is
incremented by exactly 1 and the cycle still contributes production:
`total_produced` grows by `int(production_rate / 60)` exactly as in an
error-free cycle. -/
theorem C1_amended_error_cycle_produces (cfg : Configuration) (e r : ℚ)
    (pl : ProductionLine)
    (he : e < cfg.error_threshold)
    (hn : (simulate_production_cycle cfg e r pl).2 = false) :
    (simulate_production_cycle cfg e r pl).1.error_count = pl.error_count + 1 ∧
    (simulate_production_cycle cfg e r pl).1.total_produced =
      pl.total_produced + pyInt (r * cfg.max_speed / 60) := by
  by_cases hc : pl.error_count + 1 > 5
  · rw [cycle_fault cfg e r pl he hc] at hn
    exact absurd hn (by simp)
  · rw [cycle_error_no_fault cfg e r pl he (by omega)]
    exact ⟨rfl, rfl⟩

/-- C1, witness for the amended theorem at the concrete input of the
counterexample. -/
theorem C1_witness :
    (simulate_production_cycle defaultConfig 0 (9/10) initLine).1.error_count =
      initLine.error_count + 1 ∧
    (simulate_production_cycle defaultConfig 0 (9/10) initLine).1.total_produced =
      initLine.total_produced + pyInt ((9/10) * defaultConfig.max_speed / 60) :=
  C1_amended_error_cycle_produces defaultConfig 0 (9/10) initLine
    (by norm_num [defaultConfig])
    (by norm_num [simulate_production_cycle, defaultConfig, initLine])

/-! ## Claim C2 -/

theorem execCmd_state_mem (pl : ProductionLine) (c : Cmd)
    (h : pl.state = MachineState.IDLE ∨ pl.state = MachineState.RUNNING) :
    (execCmd pl c).state = MachineState.IDLE ∨
    (execCmd pl c).state = MachineState.RUNNING := by
  cases c with
  | start =>
      rcases h with h | h
      · simp [execCmd, start_production, h]
      · simp [execCmd, start_production, h]
  | stop =>
      rcases h with h | h
      · simp [execCmd, stop_production, h]
      · simp [execCmd, stop_production, h]

theorem execCmds_state_mem (cmds : List Cmd) :
    ∀ pl : ProductionLine,
      (pl.state = MachineState.IDLE ∨ pl.state = MachineState.RUNNING) →
      ((execCmds cmds pl).state = MachineState.IDLE ∨
       (execCmds cmds pl).state = MachineState.RUNNING) := by
  induction cmds with
  | nil => exact fun pl h => h
  | cons c rest ih => exact fun pl h => ih (execCmd pl c) (execCmd_state_mem pl c h)

/-- C2: over any finite command sequence applied to a fresh line with no
worker interleaved, the state stays in `{IDLE, RUNNING}`, and the transition
table holds exactly: `start_production` moves to `RUNNING` precisely from
`IDLE` and is a complete no-op otherwise; `stop_production` moves to `IDLE`
precisely from `RUNNING` and is a complete no-op otherwise. -/
theorem C2_start_stop_transition_table (cmds : List Cmd) :
    ((execCmds cmds initLine).state = MachineState.IDLE ∨
     (execCmds cmds initLine).state = MachineState.RUNNING) ∧
    (∀ pl : ProductionLine,
      (pl.state = MachineState.IDLE →
        (start_production pl).state = MachineState.RUNNING) ∧
      (pl.state ≠ MachineState.IDLE → start_production pl = pl) ∧
      (pl.state = MachineState.RUNNING →
        (stop_production pl).state = MachineState.IDLE) ∧
      (pl.state ≠ MachineState.RUNNING → stop_production pl = pl)) := by
  refine ⟨execCmds_state_mem cmds initLine (Or.inl rfl), fun pl => ⟨?_, ?_, ?_, ?_⟩⟩
  · intro h; simp [start_production, h]
  · intro h; simp [start_production, h]
  · intro h; simp [stop_production, h]
  · intro h; simp [stop_production, h]

/-- C2, witness: on the fresh line, `start_production` reaches `RUNNING` and a
premature `stop_production` is a no-op. -/
theorem C2_witness :
    (start_production initLine).state = MachineState.RUNNING ∧
    stop_production initLine = initLine :=
  ⟨((C2_start_stop_transition_table []).2 initLine).1 rfl,
   ((C2_start_stop_transition_table []).2 initLine).2.2.2 (by simp [initLine])⟩

/-! ## Claim C3 -/

/-- C3: whenever the cycle at the head of the remaining schedule raises the
fatal fault, the worker loop catches it, sets the state to `ERROR`, issues
exactly one more observer notification, and terminates — the rest of the
schedule is never executed, whatever it is, so no further cycle runs and no
further notification is issued in that run. -/
theorem C3_fatal_fault_terminates_run (cfg : Configuration) (inp : CycleInput)
    (rest : List CycleInput) (pl : ProductionLine)
    (hr : pl._running = true)
    (hf : (simulate_production_cycle cfg inp.errDraw inp.rateDraw pl).2 = true) :
    run_production cfg (inp :: rest) pl =
      notify_observers
        { (simulate_production_cycle cfg inp.errDraw inp.rateDraw pl).1 with
            state := MachineState.ERROR } ∧
    (run_production cfg (inp :: rest) pl).state = MachineState.ERROR ∧
    (run_production cfg (inp :: rest) pl).notifications.length =
      pl.notifications.length + 1 := by
  have hstep := step_fault cfg inp pl hf
  have hrun := run_cons_false cfg inp rest pl hr (by rw [hstep])
  rw [hrun, hstep]
  refine ⟨rfl, by simp, by simp [notify_observers]⟩

/-- C3, witness: a line with five recorded errors faults on the next erroneous
cycle and the loop ends in `ERROR`. -/
theorem C3_witness :
    (run_production defaultConfig [⟨0, 9/10, 1, 1⟩] lineAtFive).state =
      MachineState.ERROR :=
  (C3_fatal_fault_terminates_run defaultConfig ⟨0, 9/10, 1, 1⟩ [] lineAtFive rfl
    (by norm_num [simulate_production_cycle, defaultConfig, lineAtFive, initLine])).2.1

/-! ## Claim C6 -/

/-- C6: whenever `_perform_maintenance` runs to completion, at its exit the
error count is 0 and the state is `RUNNING`, for every prior line state. -/
theorem C6_maintenance_postcondition (pl : ProductionLine) :
    (perform_maintenance pl).error_count = 0 ∧
    (perform_maintenance pl).state = MachineState.RUNNING :=
  ⟨rfl, rfl⟩

/-! ## Claim C10 -/

/-- C10: a faulting invocation of `_simulate_production_cycle` increments
`error_count` by exactly 1 and changes nothing else — the whole object state
equals the prior state with only `error_count` bumped — and the loop iteration
built on it appends no entry to `metrics_history` (the metrics update is
skipped on the fault path). -/
theorem C10_fault_frame (cfg : Configuration) (inp : CycleInput)
    (pl : ProductionLine)
    (hf : (simulate_production_cycle cfg inp.errDraw inp.rateDraw pl).2 = true) :
    (simulate_production_cycle cfg inp.errDraw inp.rateDraw pl).1 =
      { pl with error_count := pl.error_count + 1 } ∧
    (run_production_step cfg inp pl).1.metrics_history = pl.metrics_history := by
  obtain ⟨he, hc⟩ := (cycle_fault_iff cfg inp.errDraw inp.rateDraw pl).mp hf
  have hcy := cycle_fault cfg inp.errDraw inp.rateDraw pl he hc
  constructor
  · rw [hcy]
  · rw [step_fault cfg inp pl hf]
    simp

/-- C10, witness at a line with five recorded errors. -/
theorem C10_witness :
    (simulate_production_cycle defaultConfig (0:ℚ) (9/10) lineAtFive).1 =
      { lineAtFive with error_count := lineAtFive.error_count + 1 } :=
  (C10_fault_frame defaultConfig ⟨0, 9/10, 1, 1⟩ lineAtFive
    (by norm_num [simulate_production_cycle, defaultConfig, lineAtFive, initLine])).1

/-! ## Multi-cycle run lemmas -/

/-- A run in which every cycle errors but the fault threshold is never
crossed: each iteration adds one error, appends one metrics entry, keeps the
loop alive and preserves the state, and the run commutes with appending
further inputs. -/
theorem run_all_error (cfg : Configuration) (inputs : List CycleInput) :
    ∀ pl : ProductionLine,
      pl._running = true →
      (∀ i ∈ inputs, i.errDraw < cfg.error_threshold ∧
        i.now < cfg.maintenance_interval) →
      pl.error_count + inputs.length ≤ 5 →
      (run_production cfg inputs pl).error_count = pl.error_count + inputs.length ∧
      (run_production cfg inputs pl).metrics_history.time.length =
        pl.metrics_history.time.length + inputs.length ∧
      (run_production cfg inputs pl)._running = true ∧
      (run_production cfg inputs pl).state = pl.state ∧
      (∀ rest, run_production cfg (inputs ++ rest) pl =
        run_production cfg rest (run_production cfg inputs pl)) := by
  induction inputs with
  | nil =>
      intro pl hr _ _
      simp [run_nil, hr]
  | cons inp rest ih =>
      intro pl hr hin hbound
      have hi := hin inp (by simp)
      simp only [List.length_cons] at hbound
      push_cast at hbound
      have hc1 : pl.error_count + 1 ≤ 5 := by omega
      have hstep := step_error_no_fault_fields cfg inp pl hi.1 hc1 (not_le.mpr hi.2)
      have hrun := run_cons_true cfg inp rest pl hr hstep.1
      have ihr := ih (run_production_step cfg inp pl).1
        (by rw [hstep.2.2.2.1, hr])
        (fun i hi2 => hin i (by simp [hi2]))
        (by rw [hstep.2.1]; omega)
      refine ⟨?_, ?_, ?_, ?_, ?_⟩
      · rw [hrun, ihr.1, hstep.2.1]
        simp only [List.length_cons]; push_cast; ring
      · rw [hrun, ihr.2.1, hstep.2.2.1]
        simp only [List.length_cons]; omega
      · rw [hrun]; exact ihr.2.2.1
      · rw [hrun, ihr.2.2.2.1]; exact hstep.2.2.2.2
      · intro r2
        have hc : (inp :: rest) ++ r2 = inp :: (rest ++ r2) := rfl
        rw [hc, run_cons_true cfg inp (rest ++ r2) pl hr hstep.1,
          ihr.2.2.2.2 r2, hrun]

/-- A run in which no cycle errors, no maintenance triggers, and every cycle
contributes exactly one unit: the error count is untouched and the total grows
by the number of cycles. -/
theorem run_all_clean (cfg : Configuration) (inputs : List CycleInput) :
    ∀ pl : ProductionLine,
      pl._running = true →
      (∀ i ∈ inputs, ¬ i.errDraw < cfg.error_threshold ∧
        i.now < cfg.maintenance_interval ∧
        pyInt (i.rateDraw * cfg.max_speed / 60) = 1) →
      (run_production cfg inputs pl).total_produced =
        pl.total_produced + inputs.length ∧
      (run_production cfg inputs pl).error_count = pl.error_count ∧
      (run_production cfg inputs pl)._running = true ∧
      (run_production cfg inputs pl).state = pl.state := by
  induction inputs with
  | nil =>
      intro pl hr _
      simp [run_nil, hr]
  | cons inp rest ih =>
      intro pl hr hin
      have hi := hin inp (by simp)
      have hstep := step_clean_fields cfg inp pl hi.1 (not_le.mpr hi.2.1)
      have hrun := run_cons_true cfg inp rest pl hr hstep.1
      have ihr := ih (run_production_step cfg inp pl).1
        (by rw [hstep.2.2.2.2.1, hr])
        (fun i h2 => hin i (by simp [h2]))
      refine ⟨?_, ?_, ?_, ?_⟩
      · rw [hrun, ihr.1, hstep.2.2.1, hi.2.2]
        simp only [List.length_cons]; push_cast; ring
      · rw [hrun, ihr.2.1, hstep.2.1]
      · rw [hrun]; exact ihr.2.2.1
      · rw [hrun, ihr.2.2.2]; exact hstep.2.2.2.2.2

theorem start_fresh_eq :
    start_production initLine =
      notify_observers { initLine with state := MachineState.RUNNING, _running := true } := by
  have hs0 : initLine.state = MachineState.IDLE := rfl
  simp [start_production, hs0]

/-! ## Claim C4 -/

/-- C4, counterexample: the concrete all-error run of six cycles (threshold
1.0, every draw fires, clocks far below the maintenance interval) drives the
line to `ERROR`, but `metrics_history` then holds 5 entries, not the claimed
6: the faulting sixth cycle raises before `_update_metrics` runs. -/
theorem C4_cex :
    (run_production cfgAllError inputs6 (start_production initLine)).state =
      MachineState.ERROR ∧
    (run_production cfgAllError inputs6
        (start_production initLine)).metrics_history.time.length ≠ 6 := by
  norm_num [run_production, run_production_step, simulate_production_cycle,
    cfgAllError, inputs6, start_production, initLine, defaultConfig, pyInt,
    notify_observers, update_metrics, perform_maintenance]

/-- C4, amended: starting a fresh line with the error threshold configured to
1.0 so that every cycle errors (clock readings below the maintenance
interval), after 6 cycles the line transitions to `ERROR` and the worker
halts — any further scheduled inputs are ignored — and `metrics_history` then
contains exactly 5 entries: the faulting sixth cycle appends none. -/
theorem C4_amended_error_run (i1 i2 i3 i4 i5 i6 : CycleInput)
    (rest : List CycleInput)
    (h : ∀ i ∈ [i1, i2, i3, i4, i5, i6],
      i.errDraw < cfgAllError.error_threshold ∧
      i.now < cfgAllError.maintenance_interval) :
    (run_production cfgAllError ([i1, i2, i3, i4, i5, i6] ++ rest)
        (start_production initLine)).state = MachineState.ERROR ∧
    (run_production cfgAllError ([i1, i2, i3, i4, i5, i6] ++ rest)
        (start_production initLine)).metrics_history.time.length = 5 ∧
    run_production cfgAllError ([i1, i2, i3, i4, i5, i6] ++ rest)
        (start_production initLine) =
      run_production cfgAllError [i1, i2, i3, i4, i5, i6]
        (start_production initLine) := by
  have hr0 : (start_production initLine)._running = true := by rw [start_fresh_eq]; rfl
  have hec0 : (start_production initLine).error_count = 0 := by rw [start_fresh_eq]; rfl
  have hlen0 : (start_production initLine).metrics_history.time.length = 0 := by
    rw [start_fresh_eq]; rfl
  have h5in : ∀ i ∈ [i1, i2, i3, i4, i5],
      i.errDraw < cfgAllError.error_threshold ∧
      i.now < cfgAllError.maintenance_interval := by
    intro i hi
    apply h
    simp at hi ⊢
    tauto
  have hall := run_all_error cfgAllError [i1, i2, i3, i4, i5]
    (start_production initLine) hr0 h5in (by simp [hec0])
  have hmidec :
      (run_production cfgAllError [i1, i2, i3, i4, i5]
        (start_production initLine)).error_count = 5 := by
    rw [hall.1, hec0]; simp
  have hmidlen :
      (run_production cfgAllError [i1, i2, i3, i4, i5]
        (start_production initLine)).metrics_history.time.length = 5 := by
    rw [hall.2.1, hlen0]; simp
  have hmidr := hall.2.2.1
  have hi6 := h i6 (by simp)
  have hf6 : (simulate_production_cycle cfgAllError i6.errDraw i6.rateDraw
      (run_production cfgAllError [i1, i2, i3, i4, i5]
        (start_production initLine))).2 = true := by
    rw [cycle_fault_iff]
    exact ⟨hi6.1, by rw [hmidec]; norm_num⟩
  have hstep6 := step_fault cfgAllError i6
    (run_production cfgAllError [i1, i2, i3, i4, i5] (start_production initLine)) hf6
  have hkey : ∀ r2 : List CycleInput,
      run_production cfgAllError ([i1, i2, i3, i4, i5, i6] ++ r2)
          (start_production initLine) =
        (run_production_step cfgAllError i6
          (run_production cfgAllError [i1, i2, i3, i4, i5]
            (start_production initLine))).1 := by
    intro r2
    have hsplit : ([i1, i2, i3, i4, i5, i6] : List CycleInput) ++ r2 =
        [i1, i2, i3, i4, i5] ++ (i6 :: r2) := by simp
    rw [hsplit, hall.2.2.2.2 (i6 :: r2),
      run_cons_false cfgAllError i6 r2 _ hmidr (by rw [hstep6])]
  refine ⟨?_, ?_, ?_⟩
  · rw [hkey rest, hstep6]; simp
  · rw [hkey rest, hstep6]; simp [hmidlen]
  · rw [hkey rest]
    have h0 := hkey []
    rw [List.append_nil] at h0
    exact h0.symm

/-- C4, witness for the amended theorem at the concrete all-error inputs. -/
theorem C4_witness :
    (run_production cfgAllError
        ([⟨0, 9/10, 1, 1⟩, ⟨0, 9/10, 2, 2⟩, ⟨0, 9/10, 3, 3⟩,
          ⟨0, 9/10, 4, 4⟩, ⟨0, 9/10, 5, 5⟩, ⟨0, 9/10, 6, 6⟩] ++ [])
        (start_production initLine)).metrics_history.time.length = 5 :=
  (C4_amended_error_run ⟨0, 9/10, 1, 1⟩ ⟨0, 9/10, 2, 2⟩ ⟨0, 9/10, 3, 3⟩
    ⟨0, 9/10, 4, 4⟩ ⟨0, 9/10, 5, 5⟩ ⟨0, 9/10, 6, 6⟩ []
    (by intro i hi; fin_cases hi <;>
      norm_num [cfgAllError, defaultConfig])).2.1

/-! ## Claim C5 -/

/-- Any rate draw in `[0.8, 1.0]` contributes exactly one unit per cycle at
the default `max_speed` of 100: `int(rate / 60) = 1` because the rate lies in
`[80, 100]`. -/
theorem pyInt_uniform_rate (r : ℚ) (h1 : 4/5 ≤ r) (h2 : r ≤ 1) :
    pyInt (r * defaultConfig.max_speed / 60) = 1 := by
  have hms : defaultConfig.max_speed = 100 := rfl
  rw [hms]
  have h0 : (0:ℚ) ≤ r * 100 / 60 := by linarith
  rw [pyInt, if_neg (not_lt.mpr h0), Int.floor_eq_iff]
  constructor
  · push_cast; linarith
  · push_cast; linarith

/-- C5, counterexample: a concrete error-free ten-cycle run at the default
configuration (`max_speed = 100`, rate draws 9/10 in `[0.8, 1.0]`, error
draws 1/2 at or above the threshold) ends with `error_count = 0` but
`total_produced = 10`, outside the claimed range `[13, 16]`: the code floors
per cycle (`int(rate / 60) = 1`), it does not floor the ten-cycle sum. -/
theorem C5_cex :
    (run_production defaultConfig inputs10 (start_production initLine)).error_count = 0 ∧
    (run_production defaultConfig inputs10 (start_production initLine)).total_produced = 10 ∧
    ¬ (13 ≤ (run_production defaultConfig inputs10
          (start_production initLine)).total_produced ∧
       (run_production defaultConfig inputs10
          (start_production initLine)).total_produced ≤ 16) := by
  norm_num [run_production, run_production_step, simulate_production_cycle,
    inputs10, start_production, initLine, defaultConfig, pyInt,
    notify_observers, update_metrics, perform_maintenance]

/-- C5, amended: for a fresh line at the default configuration
(`max_speed = 100`), after 10 completed cycles in none of which the error
trigger fires (rate draws in `[0.8, 1.0]`, clocks below the maintenance
interval), `total_produced` equals exactly 10 — each cycle contributes
`int(rate / 60) = 1` — and `error_count` equals 0. -/
theorem C5_amended_clean_run (inputs : List CycleInput)
    (hlen : inputs.length = 10)
    (h : ∀ i ∈ inputs, ¬ i.errDraw < defaultConfig.error_threshold ∧
      i.now < defaultConfig.maintenance_interval ∧
      4/5 ≤ i.rateDraw ∧ i.rateDraw ≤ 1) :
    (run_production defaultConfig inputs (start_production initLine)).total_produced = 10 ∧
    (run_production defaultConfig inputs (start_production initLine)).error_count = 0 := by
  have hr0 : (start_production initLine)._running = true := by rw [start_fresh_eq]; rfl
  have hec0 : (start_production initLine).error_count = 0 := by rw [start_fresh_eq]; rfl
  have htot0 : (start_production initLine).total_produced = 0 := by rw [start_fresh_eq]; rfl
  have hclean := run_all_clean defaultConfig inputs (start_production initLine) hr0
    (fun i hi => ⟨(h i hi).1, (h i hi).2.1,
      pyInt_uniform_rate i.rateDraw (h i hi).2.2.1 (h i hi).2.2.2⟩)
  refine ⟨?_, ?_⟩
  · rw [hclean.1, htot0, hlen]; norm_num
  · rw [hclean.2.1, hec0]

/-- C5, witness for the amended theorem at the concrete clean inputs. -/
theorem C5_witness :
    (run_production defaultConfig inputs10 (start_production initLine)).total_produced = 10 :=
  (C5_amended_clean_run inputs10 (by simp [inputs10])
    (by intro i hi; fin_cases hi <;> norm_num [defaultConfig])).1

/-! ## Claim C7 -/

theorem applyOp_total_mono (cfg : Configuration) (h0 : 0 ≤ cfg.max_speed)
    (op : Op) (hv : opValid op) (pl : ProductionLine) :
    pl.total_produced ≤ (applyOp cfg pl op).total_produced := by
  cases op with
  | startCmd =>
      by_cases h : pl.state = MachineState.IDLE <;> simp [applyOp, start_production, h]
  | stopCmd =>
      by_cases h : pl.state = MachineState.RUNNING <;> simp [applyOp, stop_production, h]
  | cycle e r =>
      obtain ⟨hr1, hr2⟩ := hv
      have hrpos : (0:ℚ) ≤ r := by linarith
      have hrate : (0:ℚ) ≤ r * cfg.max_speed / 60 := by positivity
      have hnn : 0 ≤ pyInt (r * cfg.max_speed / 60) := by
        rw [pyInt, if_neg (not_lt.mpr hrate)]
        exact Int.floor_nonneg.mpr hrate
      by_cases he : e < cfg.error_threshold
      · by_cases hc : pl.error_count + 1 > 5
        · simp [applyOp, cycle_fault cfg e r pl he hc]
        · simp only [applyOp, cycle_error_no_fault cfg e r pl he (by omega)]
          omega
      · simp only [applyOp, cycle_no_error cfg e r pl he]
        omega
  | maintenance => simp [applyOp]
  | metrics n => simp [applyOp]
  | notify => simp [applyOp]

/-- C7: `total_produced` is monotonically non-decreasing across any sequence
of operations of the class — control calls, production cycles (with their
in-range rate draws and a non-negative configured throughput, as the loaded
configuration guarantees), maintenance, metrics updates and observer
notifications. -/
theorem C7_total_produced_monotone (cfg : Configuration) (h0 : 0 ≤ cfg.max_speed)
    (ops : List Op) :
    ∀ pl : ProductionLine, (∀ op ∈ ops, opValid op) →
      pl.total_produced ≤ (List.foldl (applyOp cfg) pl ops).total_produced := by
  induction ops with
  | nil => intro pl _; exact le_refl _
  | cons op rest ih =>
      intro pl hv
      calc pl.total_produced
          ≤ (applyOp cfg pl op).total_produced :=
            applyOp_total_mono cfg h0 op (hv op (by simp)) pl
        _ ≤ _ := ih (applyOp cfg pl op) (fun o ho => hv o (by simp [ho]))

/-- C7, witness: a concrete start, cycle, maintenance, stop sequence. -/
theorem C7_witness :
    initLine.total_produced ≤
      (List.foldl (applyOp defaultConfig) initLine
        [Op.startCmd, Op.cycle (1/2) (9/10), Op.maintenance, Op.stopCmd]).total_produced :=
  C7_total_produced_monotone defaultConfig (by norm_num [defaultConfig])
    [Op.startCmd, Op.cycle (1/2) (9/10), Op.maintenance, Op.stopCmd] initLine
    (by intro op hop; fin_cases hop <;> norm_num [opValid])

/-! ## Claim C8 -/

/-- C8, counterexample: not every read and write of the five shared fields
happens with the instance lock held — among the transcribed accesses are the
constructor writes (lines 58-67), the worker-loop error-handler write of
`state` (line 129), every access of `_update_metrics` (lines 160-163) and
the snapshot reads of `notify_observers` in its calls from
`start_production`, `stop_production` and `_run_production`, all performed
with no lock. -/
theorem C8_cex : ¬ ∀ a ∈ accessTable, lockHeld a.site = true := by
  decide

/-- C8, amended: the lock discipline actually implemented is partial — an
access of the five shared fields runs with the instance lock held exactly in
these contexts: inside the `with self._lock:` blocks of `start_production`,
`stop_production`, `_simulate_production_cycle` and `_perform_maintenance`,
and inside the `notify_observers` body when it is invoked from
`_perform_maintenance` (lines 150 and 155, still inside that with-block).
Every other access runs without the lock: the initializing writes of
`__init__`, the snapshot reads of `notify_observers` when invoked from
`start_production` (line 99), `stop_production` (line 111) or the worker
loop (lines 124 and 130), every access of `_update_metrics` (called from the
unlocked loop body, line 123), and the error-handler `state` write of
`_run_production` (line 129). -/
theorem C8_amended_lock_discipline :
    ∀ a ∈ accessTable, (lockHeld a.site = true ↔ a.site ∈ lockedSites) := by
  decide

/-- C8, witness: a snapshot read of `notify_observers` invoked from
`_perform_maintenance` runs with the lock held. -/
theorem C8_witness :
    (lockHeld (⟨CallSite.maint_notify, SharedField.production_rate, 82, false⟩ :
        FieldAccess).site = true ↔
      (⟨CallSite.maint_notify, SharedField.production_rate, 82, false⟩ :
        FieldAccess).site ∈ lockedSites) :=
  C8_amended_lock_discipline
    ⟨CallSite.maint_notify, SharedField.production_rate, 82, false⟩ (by decide)

/-! ## Claim C9 -/

theorem cycle_error_increment (cfg : Configuration) (e r : ℚ)
    (pl : ProductionLine) (he : e < cfg.error_threshold) :
    (simulate_production_cycle cfg e r pl).1.error_count = pl.error_count + 1 := by
  by_cases hc : pl.error_count + 1 > 5
  · rw [cycle_fault cfg e r pl he hc]
  · rw [cycle_error_no_fault cfg e r pl he (by omega)]

theorem start_error_count (pl : ProductionLine) :
    (start_production pl).error_count = pl.error_count := by
  by_cases h : pl.state = MachineState.IDLE <;> simp [start_production, h]

theorem stop_error_count (pl : ProductionLine) :
    (stop_production pl).error_count = pl.error_count := by
  by_cases h : pl.state = MachineState.RUNNING <;> simp [stop_production, h]

theorem start_noop (pl : ProductionLine) (h : pl.state ≠ MachineState.IDLE) :
    start_production pl = pl := by
  simp [start_production, h]

theorem stop_noop (pl : ProductionLine) (h : pl.state ≠ MachineState.RUNNING) :
    stop_production pl = pl := by
  simp [stop_production, h]

/-- Case analysis of one worker-loop iteration on the error count: either
maintenance reset it to 0, or it is untouched, or it grew by one below the
fault threshold, or it grew by one past the threshold and the iteration ended
in `ERROR` with the loop exiting. -/
theorem step_error_count_cases (cfg : Configuration) (inp : CycleInput)
    (pl : ProductionLine) :
    ((run_production_step cfg inp pl).1.error_count = 0 ∧
      (run_production_step cfg inp pl).2 = true) ∨
    ((run_production_step cfg inp pl).1.error_count = pl.error_count ∧
      (run_production_step cfg inp pl).2 = true) ∨
    ((run_production_step cfg inp pl).1.error_count = pl.error_count + 1 ∧
      (run_production_step cfg inp pl).2 = true ∧ pl.error_count + 1 ≤ 5) ∨
    ((run_production_step cfg inp pl).1.error_count = pl.error_count + 1 ∧
      pl.error_count + 1 > 5 ∧
      (run_production_step cfg inp pl).1.state = MachineState.ERROR ∧
      (run_production_step cfg inp pl).2 = false) := by
  by_cases he : inp.errDraw < cfg.error_threshold
  · by_cases hc : pl.error_count + 1 > 5
    · have hf := (cycle_fault_iff cfg inp.errDraw inp.rateDraw pl).mpr ⟨he, hc⟩
      refine Or.inr (Or.inr (Or.inr ⟨?_, hc, ?_, ?_⟩))
      · rw [step_fault cfg inp pl hf,
          cycle_fault cfg inp.errDraw inp.rateDraw pl he hc]
        simp
      · rw [step_fault cfg inp pl hf,
          cycle_fault cfg inp.errDraw inp.rateDraw pl he hc]
        simp
      · rw [step_fault cfg inp pl hf]
    · have hcy := cycle_error_no_fault cfg inp.errDraw inp.rateDraw pl he (by omega)
      by_cases hm : inp.now ≥ cfg.maintenance_interval
      · exact Or.inl ⟨by simp [run_production_step, hcy, hm],
          by simp [run_production_step, hcy, hm]⟩
      · exact Or.inr (Or.inr (Or.inl ⟨by simp [run_production_step, hcy, hm],
          by simp [run_production_step, hcy, hm], by omega⟩))
  · have hcy := cycle_no_error cfg inp.errDraw inp.rateDraw pl he
    by_cases hm : inp.now ≥ cfg.maintenance_interval
    · exact Or.inl ⟨by simp [run_production_step, hcy, hm],
        by simp [run_production_step, hcy, hm]⟩
    · exact Or.inr (Or.inl ⟨by simp [run_production_step, hcy, hm],
        by simp [run_production_step, hcy, hm]⟩)

theorem step_error_count_bound (cfg : Configuration) (inp : CycleInput)
    (pl : ProductionLine) (h0 : 0 ≤ pl.error_count) (h5 : pl.error_count ≤ 5) :
    0 ≤ (run_production_step cfg inp pl).1.error_count ∧
    (run_production_step cfg inp pl).1.error_count ≤ 6 ∧
    ((run_production_step cfg inp pl).1.error_count = 6 →
      (run_production_step cfg inp pl).1.state = MachineState.ERROR ∧
      (run_production_step cfg inp pl).2 = false) := by
  rcases step_error_count_cases cfg inp pl with
    ⟨h1, _⟩ | ⟨h1, _⟩ | ⟨h1, _, h3⟩ | ⟨h1, h2, h3, h4⟩
  · exact ⟨by omega, by omega, fun h => absurd h (by omega)⟩
  · exact ⟨by omega, by omega, fun h => absurd h (by omega)⟩
  · exact ⟨by omega, by omega, fun h => absurd h (by omega)⟩
  · exact ⟨by omega, by omega, fun _ => ⟨h3, h4⟩⟩

/-- The guard facts needed to walk the race trace: worker count at least one
and `_running` still set at every point where a worker takes a loop
iteration — including at `mw9`, after the first worker faulted, because the
`except` handler of lines 127-131 sets `state = ERROR` but never clears
`_running`, and `stop_production` rejects on the `ERROR` state. -/
theorem badTrace_guards :
    (1 ≤ mw1.workers ∧ mw1.line._running = true) ∧
    (1 ≤ mw2.workers ∧ mw2.line._running = true) ∧
    (1 ≤ mw3.workers ∧ mw3.line._running = true) ∧
    (1 ≤ mw4.workers ∧ mw4.line._running = true) ∧
    (1 ≤ mw5.workers ∧ mw5.line._running = true) ∧
    (1 ≤ mw8.workers ∧ mw8.line._running = true) ∧
    (1 ≤ mw9.workers ∧ mw9.line._running = true) := by
  norm_num [mw1, mw2, mw3, mw4, mw5, mw6, mw7, mw8, mw9, sysStart, sysStop,
    sysCycle, run_production_step, simulate_production_cycle, start_production,
    stop_production, notify_observers, update_metrics, perform_maintenance,
    pyInt, cfgAllError, defaultConfig, initLine]

/-- C9, counterexample: the claimed upper bound 6 fails on the program.
`stop_production` while the worker sleeps, followed by `start_production`,
passes the `IDLE` guard and spawns a second worker thread (line 100) while
the first is still alive.  After five erroneous cycles the first worker
faults at count 6, leaving `_running` set; the surviving second worker then
runs one more erroneous cycle and `error_count` reaches 7. -/
theorem C9_cex :
    ReachableM cfgAllError badSys ∧ badSys.line.error_count = 7 := by
  obtain ⟨g1, g2, g3, g4, g5, g8, g9⟩ := badTrace_guards
  constructor
  · have r0 : ReachableM cfgAllError ⟨initLine, 0⟩ := ReachableM.init
    have r1 : ReachableM cfgAllError mw1 := r0.step (StepM.start ⟨initLine, 0⟩)
    have r2 : ReachableM cfgAllError mw2 :=
      r1.step (StepM.workerCycle mw1 ⟨0, 9/10, 1, 1⟩ g1.1 g1.2)
    have r3 : ReachableM cfgAllError mw3 :=
      r2.step (StepM.workerCycle mw2 ⟨0, 9/10, 2, 2⟩ g2.1 g2.2)
    have r4 : ReachableM cfgAllError mw4 :=
      r3.step (StepM.workerCycle mw3 ⟨0, 9/10, 3, 3⟩ g3.1 g3.2)
    have r5 : ReachableM cfgAllError mw5 :=
      r4.step (StepM.workerCycle mw4 ⟨0, 9/10, 4, 4⟩ g4.1 g4.2)
    have r6 : ReachableM cfgAllError mw6 :=
      r5.step (StepM.workerCycle mw5 ⟨0, 9/10, 5, 5⟩ g5.1 g5.2)
    have r7 : ReachableM cfgAllError mw7 := r6.step (StepM.stop mw6)
    have r8 : ReachableM cfgAllError mw8 := r7.step (StepM.start mw7)
    have r9 : ReachableM cfgAllError mw9 :=
      r8.step (StepM.workerCycle mw8 ⟨0, 9/10, 6, 6⟩ g8.1 g8.2)
    exact r9.step (StepM.workerCycle mw9 ⟨0, 9/10, 7, 7⟩ g9.1 g9.2)
  · norm_num [badSys, mw1, mw2, mw3, mw4, mw5, mw6, mw7, mw8, mw9, sysStart,
      sysStop, sysCycle, run_production_step, simulate_production_cycle,
      start_production, stop_production, notify_observers, update_metrics,
      perform_maintenance, pyInt, cfgAllError, defaultConfig, initLine]

theorem errInvSW_step {cfg : Configuration} {s t : SysM}
    (hinv : ErrInvSW s) (hstep : StepSW cfg s t) : ErrInvSW t := by
  obtain ⟨h0, h6, hw1, hterm⟩ := hinv
  cases hstep with
  | start hguard =>
      refine ⟨?_, ?_, ?_, ?_⟩
      · simpa [sysStart, start_error_count] using h0
      · simpa [sysStart, start_error_count] using h6
      · by_cases hs : s.line.state = MachineState.IDLE
        · simp [sysStart, hs, hguard hs]
        · simpa [sysStart, hs] using hw1
      · intro h
        have hec : s.line.error_count = 6 := by
          simpa [sysStart, start_error_count] using h
        obtain ⟨hst, hwk⟩ := hterm hec
        have hne : s.line.state ≠ MachineState.IDLE := by rw [hst]; decide
        refine ⟨?_, ?_⟩
        · simpa [sysStart, start_noop s.line hne] using hst
        · simpa [sysStart, hne] using hwk
  | stop =>
      refine ⟨?_, ?_, ?_, ?_⟩
      · simpa [sysStop, stop_error_count] using h0
      · simpa [sysStop, stop_error_count] using h6
      · simpa [sysStop] using hw1
      · intro h
        have hec : s.line.error_count = 6 := by
          simpa [sysStop, stop_error_count] using h
        obtain ⟨hst, hwk⟩ := hterm hec
        have hne : s.line.state ≠ MachineState.RUNNING := by rw [hst]; decide
        refine ⟨?_, ?_⟩
        · simpa [sysStop, stop_noop s.line hne] using hst
        · simpa [sysStop] using hwk
  | workerExit hw hrF =>
      refine ⟨h0, h6, ?_, ?_⟩
      · simp only [sysExit]
        omega
      · intro h
        have hec : s.line.error_count = 6 := h
        exact absurd (hterm hec).2 (by omega)
  | workerCycle inp hw hr =>
      have h5 : s.line.error_count ≤ 5 := by
        by_cases h : s.line.error_count = 6
        · exact absurd (hterm h).2 (by omega)
        · omega
      have hb := step_error_count_bound cfg inp s.line h0 h5
      refine ⟨hb.1, hb.2.1, ?_, ?_⟩
      · simp only [sysCycle]
        split <;> omega
      · intro h
        have hec : (run_production_step cfg inp s.line).1.error_count = 6 := h
        obtain ⟨hst, hsnd⟩ := hb.2.2 hec
        refine ⟨hst, ?_⟩
        simp [sysCycle, hsnd]
        omega

/-- C9, amended: in every system state reachable under the single-worker
discipline — `start_production` is never invoked while an earlier worker
thread is still alive, the situation the spec assumes — `error_count` lies
between 0 and 6 inclusive; it starts at 0, every cycle whose error trigger
fires increments it by exactly 1, the fatal fault is raised exactly when the
increment takes the count above 5, and a completed maintenance routine resets
it to 0.  (Without that discipline the stop-then-start race spawns a second
concurrent worker and the count can reach 7, as the counterexample shows.) -/
theorem C9_amended_error_count_bounds :
    (∀ (cfg : Configuration) (s : SysM), ReachableSW cfg s →
      0 ≤ s.line.error_count ∧ s.line.error_count ≤ 6) ∧
    (∀ (cfg : Configuration) (e r : ℚ) (pl : ProductionLine),
      e < cfg.error_threshold →
      (simulate_production_cycle cfg e r pl).1.error_count = pl.error_count + 1) ∧
    (∀ (cfg : Configuration) (e r : ℚ) (pl : ProductionLine),
      ((simulate_production_cycle cfg e r pl).2 = true ↔
        e < cfg.error_threshold ∧ pl.error_count + 1 > 5)) ∧
    (∀ pl : ProductionLine, (perform_maintenance pl).error_count = 0) ∧
    initLine.error_count = 0 := by
  refine ⟨?_, fun cfg e r pl he => cycle_error_increment cfg e r pl he,
    fun cfg e r pl => cycle_fault_iff cfg e r pl, fun pl => rfl, rfl⟩
  intro cfg s hs
  have key : ErrInvSW s := by
    induction hs with
    | init =>
        refine ⟨le_refl 0, by norm_num [initLine], by norm_num, ?_⟩
        intro h
        exact absurd h (by norm_num [initLine])
    | step hpre hstep ih => exact errInvSW_step ih hstep
  exact ⟨key.1, key.2.1⟩

/-- C9, witness for the amended theorem: the bound at the initial system
state, and the exact increment at a concrete erroneous cycle. -/
theorem C9_amended_witness :
    (0 ≤ (⟨initLine, 0⟩ : SysM).line.error_count ∧
      (⟨initLine, 0⟩ : SysM).line.error_count ≤ 6) ∧
    (simulate_production_cycle defaultConfig 0 (9/10) initLine).1.error_count =
      initLine.error_count + 1 :=
  ⟨C9_amended_error_count_bounds.1 defaultConfig ⟨initLine, 0⟩ ReachableSW.init,
   C9_amended_error_count_bounds.2.1 defaultConfig 0 (9/10) initLine
     (by norm_num [defaultConfig])⟩

end ProductionLineControl
